import Mathlib

/-!
Shallow embedding of `src/app/app.py`: a Flask CRUD service on a `users`
table (PostgreSQL) with a Redis read cache.

Modelling choices:
* The relational store is a list of user rows plus the SERIAL counter for
  the next id; the `email UNIQUE` constraint is modelled inside the insert
  and update operations (they fail with an integrity error exactly when a
  conflicting row exists, mirroring `psycopg2.IntegrityError`).
* The Redis cache is an association list from string keys to a value and
  its expiry (the `setex` ttl argument).  `delete`, `get`, `setex` are
  modelled directly.
* Each HTTP handler becomes a pure function from an environment
  (reachability of the two dependencies, plus a flag for a generic store
  exception raised by `cursor.execute`) and a system state to an outcome
  `(status, body, new state)`.  The state carries counters for
  `get_db_connection` / `get_redis_connection` calls and for executed
  store queries, so that "never reaches the store / cache" and "the store
  is not consulted" are observable.
* Request bodies are records of optional strings: `none` models an absent
  JSON key, `some ""` a key present with an empty value; Python truthiness
  of `data.get(k)` is `truthy`, key presence `k in data` is `Option.isSome`.
-/

/-- A row of the `users` table.  `created_at` is kept as its serialized
ISO-8601 string, which is how every handler returns it. -/
structure User where
  id : Nat
  name : String
  email : String
  created_at : String
deriving Repr, DecidableEq

/-- The relational store: the rows plus the SERIAL counter assigning ids. -/
structure Store where
  rows : List User
  nextId : Nat
deriving Repr, DecidableEq

/-- A value held in the cache: either the serialized collection
(`users:all`) or a serialized single user (`user:<id>`). -/
inductive CacheVal where
  | col (users : List User)
  | item (u : User)
deriving Repr, DecidableEq

/-- The Redis cache: an association list from keys to value and expiry. -/
abbrev Cache := List (String × CacheVal × Nat)

/-- `GET key`: the first entry for the key, without its ttl. -/
def cacheGet (c : Cache) (k : String) : Option CacheVal :=
  (c.find? (fun e => e.1 = k)).map (fun e => e.2.1)

/-- `GET key` together with the stored expiry. -/
def cacheGetFull (c : Cache) (k : String) : Option (CacheVal × Nat) :=
  (c.find? (fun e => e.1 = k)).map (fun e => e.2)

/-- `DELETE key`. -/
def cacheDel (c : Cache) (k : String) : Cache :=
  c.filter (fun e => ¬ e.1 = k)

/-- `SETEX key ttl value`. -/
def cacheSetex (c : Cache) (k : String) (ttl : Nat) (v : CacheVal) : Cache :=
  (k, v, ttl) :: cacheDel c k

/-- Reachability of the two dependencies, and whether `cursor.execute`
raises a generic (non-integrity) exception. -/
structure Env where
  dbUp : Bool
  cacheUp : Bool
  dbErr : Bool
deriving Repr, DecidableEq

/-- The full observable system state threaded through a request:
store, cache, and counters for connection attempts and executed queries. -/
structure Sys where
  store : Store
  cache : Cache
  dbConns : Nat
  cacheConns : Nat
  dbCalls : Nat
deriving Repr, DecidableEq

/-- JSON response bodies, by shape. -/
inductive Resp where
  | usersList (l : List User)
  | oneUser (u : User)
  | err (m : String)
  | msg (m : String)
deriving Repr, DecidableEq

/-- `json.loads` of a cached value, as a response body. -/
def respOfCacheVal : CacheVal → Resp
  | .col l => .usersList l
  | .item u => .oneUser u

/-- The outcome of one request: HTTP status, body, final state. -/
structure Outcome where
  status : Nat
  body : Resp
  sys : Sys
deriving Repr, DecidableEq

/-- A JSON body: each field is absent (`none`) or present with a string. -/
structure ReqBody where
  name : Option String
  email : Option String
deriving Repr, DecidableEq

/-- Python truthiness of `data.get(field)`: present and non-empty. -/
def truthy : Option String → Bool
  | none => false
  | some s => s ≠ ""

/-- Look up a row by id (`SELECT ... WHERE id = %s`). -/
def findUser (s : Store) (uid : Nat) : Option User :=
  s.rows.find? (fun u => u.id = uid)

/-- `ORDER BY id` on the result set. -/
def insertSorted (u : User) : List User → List User
  | [] => [u]
  | v :: vs => if u.id ≤ v.id then u :: v :: vs else v :: insertSorted u vs

/-- Sort rows by id, modelling `SELECT ... ORDER BY id`. -/
def sortById (l : List User) : List User :=
  l.foldr insertSorted []

/-- `INSERT INTO users (name, email) VALUES (%s, %s) RETURNING ...`.
Fails (integrity error) iff a row with the same email exists; otherwise
the store assigns `nextId` and `created_at := now`. -/
def insertUser (s : Store) (name email now : String) :
    Except Unit (User × Store) :=
  if s.rows.any (fun u => u.email = email) then .error ()
  else
    let u : User := ⟨s.nextId, name, email, now⟩
    .ok (u, ⟨s.rows ++ [u], s.nextId + 1⟩)

/-- Result of the dynamic `UPDATE` statement. -/
inductive UpdResult where
  | notFound
  | conflict
  | ok (u : User) (s : Store)
deriving Repr, DecidableEq

/-- `UPDATE users SET ... WHERE id = %s RETURNING ...` built from the
present fields (`'name' in data`, `'email' in data`).  No matching row
yields `notFound` (fetchone gives None); setting the email to one held by
a different row raises the unique-constraint violation (`conflict`);
otherwise the present fields overwrite the row. -/
def updateUser (s : Store) (uid : Nat) (nameF emailF : Option String) :
    UpdResult :=
  match findUser s uid with
  | none => .notFound
  | some u =>
    if emailF.isSome ∧ s.rows.any (fun v => v.id ≠ uid ∧ v.email = emailF.getD "") then
      .conflict
    else
      let u2 : User :=
        { u with name := nameF.getD u.name, email := emailF.getD u.email }
      .ok u2 ⟨s.rows.map (fun v => if v.id = uid then u2 else v), s.nextId⟩

/-- `DELETE FROM users WHERE id = %s RETURNING id`: `none` when no row
matched, otherwise the store without that row. -/
def deleteUserStore (s : Store) (uid : Nat) : Option Store :=
  if s.rows.any (fun u => u.id = uid) then
    some ⟨s.rows.filter (fun u => ¬ u.id = uid), s.nextId⟩
  else none

/-- The per-item cache key `f'user:{user_id}'`. -/
def userKey (uid : Nat) : String :=
  "user:" ++ toString uid

/-- `POST /users` (`create_user` in app.py). -/
def create_user (env : Env) (data : Option ReqBody) (now : String)
    (s : Sys) : Outcome :=
  match data with
  | none => ⟨400, .err "Name and email are required", s⟩
  | some d =>
    if truthy d.name = false ∨ truthy d.email = false then
      ⟨400, .err "Name and email are required", s⟩
    else
      let s1 : Sys := { s with dbConns := s.dbConns + 1 }
      if env.dbUp = false then ⟨500, .err "Database connection failed", s1⟩
      else
        let s2 : Sys := { s1 with dbCalls := s1.dbCalls + 1 }
        if env.dbErr then ⟨500, .err "db error", s2⟩
        else
          match insertUser s2.store (d.name.getD "") (d.email.getD "") now with
          | .error _ => ⟨400, .err "Email already exists", s2⟩
          | .ok (u, st) =>
            let s3 : Sys := { s2 with store := st, cacheConns := s2.cacheConns + 1 }
            let s4 : Sys :=
              if env.cacheUp then { s3 with cache := cacheDel s3.cache "users:all" }
              else s3
            ⟨201, .oneUser u, s4⟩

/-- `GET /users` (`get_users` in app.py). -/
def get_users (env : Env) (s : Sys) : Outcome :=
  let s1 : Sys := { s with cacheConns := s.cacheConns + 1 }
  match (if env.cacheUp then cacheGet s.cache "users:all" else none) with
  | some v => ⟨200, respOfCacheVal v, s1⟩
  | none =>
    let s2 : Sys := { s1 with dbConns := s1.dbConns + 1 }
    if env.dbUp = false then ⟨500, .err "Database connection failed", s2⟩
    else
      let s3 : Sys := { s2 with dbCalls := s2.dbCalls + 1 }
      if env.dbErr then ⟨500, .err "db error", s3⟩
      else
        let rows := sortById s3.store.rows
        let s4 : Sys :=
          if env.cacheUp then
            { s3 with cache := cacheSetex s3.cache "users:all" 30 (.col rows) }
          else s3
        ⟨200, .usersList rows, s4⟩

/-- `GET /users/<id>` (`get_user` in app.py). -/
def get_user (env : Env) (uid : Nat) (s : Sys) : Outcome :=
  let s1 : Sys := { s with cacheConns := s.cacheConns + 1 }
  match (if env.cacheUp then cacheGet s.cache (userKey uid) else none) with
  | some v => ⟨200, respOfCacheVal v, s1⟩
  | none =>
    let s2 : Sys := { s1 with dbConns := s1.dbConns + 1 }
    if env.dbUp = false then ⟨500, .err "Database connection failed", s2⟩
    else
      let s3 : Sys := { s2 with dbCalls := s2.dbCalls + 1 }
      if env.dbErr then ⟨500, .err "db error", s3⟩
      else
        match findUser s3.store uid with
        | none => ⟨404, .err "User not found", s3⟩
        | some u =>
          let s4 : Sys :=
            if env.cacheUp then
              { s3 with cache := cacheSetex s3.cache (userKey uid) 60 (.item u) }
            else s3
          ⟨200, .oneUser u, s4⟩

/-- `PUT /users/<id>` (`update_user` in app.py). -/
def update_user (env : Env) (uid : Nat) (data : Option ReqBody)
    (s : Sys) : Outcome :=
  match data with
  | none => ⟨400, .err "Name or email is required", s⟩
  | some d =>
    if truthy d.name = false ∧ truthy d.email = false then
      ⟨400, .err "Name or email is required", s⟩
    else
      let s1 : Sys := { s with dbConns := s.dbConns + 1 }
      if env.dbUp = false then ⟨500, .err "Database connection failed", s1⟩
      else
        let s2 : Sys := { s1 with dbCalls := s1.dbCalls + 1 }
        if env.dbErr then ⟨500, .err "db error", s2⟩
        else
          match updateUser s2.store uid d.name d.email with
          | .notFound => ⟨404, .err "User not found", s2⟩
          | .conflict => ⟨400, .err "Email already exists", s2⟩
          | .ok u st =>
            let s3 : Sys := { s2 with store := st, cacheConns := s2.cacheConns + 1 }
            let s4 : Sys :=
              if env.cacheUp then
                { s3 with cache := cacheDel (cacheDel s3.cache "users:all") (userKey uid) }
              else s3
            ⟨200, .oneUser u, s4⟩

/-- `DELETE /users/<id>` (`delete_user` in app.py). -/
def delete_user (env : Env) (uid : Nat) (s : Sys) : Outcome :=
  let s1 : Sys := { s with dbConns := s.dbConns + 1 }
  if env.dbUp = false then ⟨500, .err "Database connection failed", s1⟩
  else
    let s2 : Sys := { s1 with dbCalls := s1.dbCalls + 1 }
    if env.dbErr then ⟨500, .err "db error", s2⟩
    else
      match deleteUserStore s2.store uid with
      | none => ⟨404, .err "User not found", s2⟩
      | some st =>
        let s3 : Sys := { s2 with store := st, cacheConns := s2.cacheConns + 1 }
        let s4 : Sys :=
          if env.cacheUp then
            { s3 with cache := cacheDel (cacheDel s3.cache "users:all") (userKey uid) }
          else s3
        ⟨200, .msg "User deleted successfully", s4⟩

/-! ### Cache lemmas -/

theorem cacheGet_cons (e : String × CacheVal × Nat) (c : Cache) (k : String) :
    cacheGet (e :: c) k = if e.1 = k then some e.2.1 else cacheGet c k := by
  by_cases h : e.1 = k <;> simp [cacheGet, List.find?_cons, h]

theorem cacheDel_cons (e : String × CacheVal × Nat) (c : Cache) (k : String) :
    cacheDel (e :: c) k = if e.1 = k then cacheDel c k else e :: cacheDel c k := by
  by_cases h : e.1 = k <;> simp [cacheDel, List.filter_cons, h]

theorem cacheGet_del_self (c : Cache) (k : String) :
    cacheGet (cacheDel c k) k = none := by
  induction c with
  | nil => rfl
  | cons e c ih =>
    rw [cacheDel_cons]
    by_cases h : e.1 = k
    · rw [if_pos h]; exact ih
    · rw [if_neg h, cacheGet_cons, if_neg h]; exact ih

theorem cacheGet_del_ne (c : Cache) (k k2 : String) (h : ¬ k = k2) :
    cacheGet (cacheDel c k2) k = cacheGet c k := by
  induction c with
  | nil => rfl
  | cons e c ih =>
    rw [cacheDel_cons]
    by_cases he2 : e.1 = k2
    · have hek : ¬ e.1 = k := fun hk => h (by rw [← hk, he2])
      rw [if_pos he2, ih, cacheGet_cons, if_neg hek]
    · rw [if_neg he2, cacheGet_cons, cacheGet_cons, ih]

theorem cacheGetFull_setex_self (c : Cache) (k : String) (ttl : Nat) (v : CacheVal) :
    cacheGetFull (cacheSetex c k ttl v) k = some (v, ttl) := by
  simp [cacheGetFull, cacheSetex, List.find?]

/-! ### Branch characterizations of the handlers -/

theorem create_user_invalid (env : Env) (data : Option ReqBody) (now : String)
    (s : Sys)
    (h : data = none ∨
      ∃ d, data = some d ∧ (truthy d.name = false ∨ truthy d.email = false)) :
    create_user env data now s = ⟨400, .err "Name and email are required", s⟩ := by
  rcases h with h | ⟨d, rfl, h⟩
  · subst h; rfl
  · simp [create_user, h]

theorem create_user_dbDown (env : Env) (d : ReqBody) (now : String) (s : Sys)
    (hv : truthy d.name = true) (hv2 : truthy d.email = true)
    (hdb : env.dbUp = false) :
    create_user env (some d) now s =
      ⟨500, .err "Database connection failed", { s with dbConns := s.dbConns + 1 }⟩ := by
  simp [create_user, hv, hv2, hdb]

theorem create_user_dbErr (env : Env) (d : ReqBody) (now : String) (s : Sys)
    (hv : truthy d.name = true) (hv2 : truthy d.email = true)
    (hdb : env.dbUp = true) (herr : env.dbErr = true) :
    create_user env (some d) now s =
      ⟨500, .err "db error",
        { s with dbConns := s.dbConns + 1, dbCalls := s.dbCalls + 1 }⟩ := by
  simp [create_user, hv, hv2, hdb, herr]

theorem create_user_conflict (env : Env) (d : ReqBody) (now : String) (s : Sys)
    (hv : truthy d.name = true) (hv2 : truthy d.email = true)
    (hdb : env.dbUp = true) (herr : env.dbErr = false)
    (hins : insertUser s.store (d.name.getD "") (d.email.getD "") now = .error ()) :
    create_user env (some d) now s =
      ⟨400, .err "Email already exists",
        { s with dbConns := s.dbConns + 1, dbCalls := s.dbCalls + 1 }⟩ := by
  simp [create_user, hv, hv2, hdb, herr, hins]

theorem create_user_ok (env : Env) (d : ReqBody) (now : String) (s : Sys)
    (u : User) (st : Store)
    (hv : truthy d.name = true) (hv2 : truthy d.email = true)
    (hdb : env.dbUp = true) (herr : env.dbErr = false)
    (hins : insertUser s.store (d.name.getD "") (d.email.getD "") now = .ok (u, st)) :
    create_user env (some d) now s =
      ⟨201, .oneUser u,
        { store := st,
          cache := if env.cacheUp = true then cacheDel s.cache "users:all" else s.cache,
          dbConns := s.dbConns + 1,
          cacheConns := s.cacheConns + 1,
          dbCalls := s.dbCalls + 1 }⟩ := by
  by_cases hc : env.cacheUp = true <;>
    simp [create_user, hv, hv2, hdb, herr, hins, hc]

theorem get_users_hit (env : Env) (s : Sys) (v : CacheVal)
    (hc : env.cacheUp = true) (hget : cacheGet s.cache "users:all" = some v) :
    get_users env s =
      ⟨200, respOfCacheVal v, { s with cacheConns := s.cacheConns + 1 }⟩ := by
  simp [get_users, hc, hget]

theorem get_users_miss_dbDown (env : Env) (s : Sys)
    (hmiss : env.cacheUp = false ∨ cacheGet s.cache "users:all" = none)
    (hdb : env.dbUp = false) :
    get_users env s =
      ⟨500, .err "Database connection failed",
        { s with cacheConns := s.cacheConns + 1, dbConns := s.dbConns + 1 }⟩ := by
  rcases hmiss with h | h <;> simp [get_users, h, hdb]

theorem get_users_miss_dbErr (env : Env) (s : Sys)
    (hmiss : env.cacheUp = false ∨ cacheGet s.cache "users:all" = none)
    (hdb : env.dbUp = true) (herr : env.dbErr = true) :
    get_users env s =
      ⟨500, .err "db error",
        { s with
            cacheConns := s.cacheConns + 1
            dbConns := s.dbConns + 1
            dbCalls := s.dbCalls + 1 }⟩ := by
  rcases hmiss with h | h <;> simp [get_users, h, hdb, herr]

theorem get_users_miss_ok (env : Env) (s : Sys)
    (hmiss : env.cacheUp = false ∨ cacheGet s.cache "users:all" = none)
    (hdb : env.dbUp = true) (herr : env.dbErr = false) :
    get_users env s =
      ⟨200, .usersList (sortById s.store.rows),
        { s with
          cache :=
            if env.cacheUp = true then
              cacheSetex s.cache "users:all" 30 (.col (sortById s.store.rows))
            else s.cache
          cacheConns := s.cacheConns + 1
          dbConns := s.dbConns + 1
          dbCalls := s.dbCalls + 1 }⟩ := by
  rcases hmiss with h | h <;> by_cases hc : env.cacheUp = true <;>
    simp_all [get_users, hdb, herr]

theorem get_user_hit (env : Env) (uid : Nat) (s : Sys) (v : CacheVal)
    (hc : env.cacheUp = true) (hget : cacheGet s.cache (userKey uid) = some v) :
    get_user env uid s =
      ⟨200, respOfCacheVal v, { s with cacheConns := s.cacheConns + 1 }⟩ := by
  simp [get_user, hc, hget]

theorem get_user_miss_dbDown (env : Env) (uid : Nat) (s : Sys)
    (hmiss : env.cacheUp = false ∨ cacheGet s.cache (userKey uid) = none)
    (hdb : env.dbUp = false) :
    get_user env uid s =
      ⟨500, .err "Database connection failed",
        { s with cacheConns := s.cacheConns + 1, dbConns := s.dbConns + 1 }⟩ := by
  rcases hmiss with h | h <;> simp [get_user, h, hdb]

theorem get_user_miss_dbErr (env : Env) (uid : Nat) (s : Sys)
    (hmiss : env.cacheUp = false ∨ cacheGet s.cache (userKey uid) = none)
    (hdb : env.dbUp = true) (herr : env.dbErr = true) :
    get_user env uid s =
      ⟨500, .err "db error",
        { s with
            cacheConns := s.cacheConns + 1
            dbConns := s.dbConns + 1
            dbCalls := s.dbCalls + 1 }⟩ := by
  rcases hmiss with h | h <;> simp [get_user, h, hdb, herr]

theorem get_user_miss_notFound (env : Env) (uid : Nat) (s : Sys)
    (hmiss : env.cacheUp = false ∨ cacheGet s.cache (userKey uid) = none)
    (hdb : env.dbUp = true) (herr : env.dbErr = false)
    (hfind : findUser s.store uid = none) :
    get_user env uid s =
      ⟨404, .err "User not found",
        { s with
            cacheConns := s.cacheConns + 1
            dbConns := s.dbConns + 1
            dbCalls := s.dbCalls + 1 }⟩ := by
  rcases hmiss with h | h <;> simp [get_user, h, hdb, herr, hfind]

theorem get_user_miss_found (env : Env) (uid : Nat) (s : Sys) (u : User)
    (hmiss : env.cacheUp = false ∨ cacheGet s.cache (userKey uid) = none)
    (hdb : env.dbUp = true) (herr : env.dbErr = false)
    (hfind : findUser s.store uid = some u) :
    get_user env uid s =
      ⟨200, .oneUser u,
        { s with
          cache :=
            if env.cacheUp = true then
              cacheSetex s.cache (userKey uid) 60 (.item u)
            else s.cache
          cacheConns := s.cacheConns + 1
          dbConns := s.dbConns + 1
          dbCalls := s.dbCalls + 1 }⟩ := by
  rcases hmiss with h | h <;> by_cases hc : env.cacheUp = true <;>
    simp_all [get_user, hdb, herr, hfind]

theorem update_user_invalid (env : Env) (uid : Nat) (data : Option ReqBody)
    (s : Sys)
    (h : data = none ∨
      ∃ d, data = some d ∧ truthy d.name = false ∧ truthy d.email = false) :
    update_user env uid data s = ⟨400, .err "Name or email is required", s⟩ := by
  rcases h with h | ⟨d, rfl, h1, h2⟩
  · subst h; rfl
  · simp [update_user, h1, h2]

theorem update_user_dbDown (env : Env) (uid : Nat) (d : ReqBody) (s : Sys)
    (hv : truthy d.name = true ∨ truthy d.email = true)
    (hdb : env.dbUp = false) :
    update_user env uid (some d) s =
      ⟨500, .err "Database connection failed", { s with dbConns := s.dbConns + 1 }⟩ := by
  rcases hv with h | h <;> simp [update_user, h, hdb]

theorem update_user_dbErr (env : Env) (uid : Nat) (d : ReqBody) (s : Sys)
    (hv : truthy d.name = true ∨ truthy d.email = true)
    (hdb : env.dbUp = true) (herr : env.dbErr = true) :
    update_user env uid (some d) s =
      ⟨500, .err "db error",
        { s with
            dbConns := s.dbConns + 1
            dbCalls := s.dbCalls + 1 }⟩ := by
  rcases hv with h | h <;> simp [update_user, h, hdb, herr]

theorem update_user_notFound (env : Env) (uid : Nat) (d : ReqBody) (s : Sys)
    (hv : truthy d.name = true ∨ truthy d.email = true)
    (hdb : env.dbUp = true) (herr : env.dbErr = false)
    (hupd : updateUser s.store uid d.name d.email = .notFound) :
    update_user env uid (some d) s =
      ⟨404, .err "User not found",
        { s with
            dbConns := s.dbConns + 1
            dbCalls := s.dbCalls + 1 }⟩ := by
  rcases hv with h | h <;> simp [update_user, h, hdb, herr, hupd]

theorem update_user_conflict (env : Env) (uid : Nat) (d : ReqBody) (s : Sys)
    (hv : truthy d.name = true ∨ truthy d.email = true)
    (hdb : env.dbUp = true) (herr : env.dbErr = false)
    (hupd : updateUser s.store uid d.name d.email = .conflict) :
    update_user env uid (some d) s =
      ⟨400, .err "Email already exists",
        { s with
            dbConns := s.dbConns + 1
            dbCalls := s.dbCalls + 1 }⟩ := by
  rcases hv with h | h <;> simp [update_user, h, hdb, herr, hupd]

theorem update_user_ok (env : Env) (uid : Nat) (d : ReqBody) (s : Sys)
    (u : User) (st : Store)
    (hv : truthy d.name = true ∨ truthy d.email = true)
    (hdb : env.dbUp = true) (herr : env.dbErr = false)
    (hupd : updateUser s.store uid d.name d.email = .ok u st) :
    update_user env uid (some d) s =
      ⟨200, .oneUser u,
        { store := st,
          cache :=
            if env.cacheUp = true then
              cacheDel (cacheDel s.cache "users:all") (userKey uid)
            else s.cache,
          dbConns := s.dbConns + 1,
          cacheConns := s.cacheConns + 1,
          dbCalls := s.dbCalls + 1 }⟩ := by
  rcases hv with h | h <;> by_cases hc : env.cacheUp = true <;>
    simp_all [update_user, hdb, herr, hupd]

theorem delete_user_dbDown (env : Env) (uid : Nat) (s : Sys)
    (hdb : env.dbUp = false) :
    delete_user env uid s =
      ⟨500, .err "Database connection failed", { s with dbConns := s.dbConns + 1 }⟩ := by
  simp [delete_user, hdb]

theorem delete_user_dbErr (env : Env) (uid : Nat) (s : Sys)
    (hdb : env.dbUp = true) (herr : env.dbErr = true) :
    delete_user env uid s =
      ⟨500, .err "db error",
        { s with
            dbConns := s.dbConns + 1
            dbCalls := s.dbCalls + 1 }⟩ := by
  simp [delete_user, hdb, herr]

theorem delete_user_notFound (env : Env) (uid : Nat) (s : Sys)
    (hdb : env.dbUp = true) (herr : env.dbErr = false)
    (hdel : deleteUserStore s.store uid = none) :
    delete_user env uid s =
      ⟨404, .err "User not found",
        { s with
            dbConns := s.dbConns + 1
            dbCalls := s.dbCalls + 1 }⟩ := by
  simp [delete_user, hdb, herr, hdel]

theorem delete_user_ok (env : Env) (uid : Nat) (s : Sys) (st : Store)
    (hdb : env.dbUp = true) (herr : env.dbErr = false)
    (hdel : deleteUserStore s.store uid = some st) :
    delete_user env uid s =
      ⟨200, .msg "User deleted successfully",
        { store := st,
          cache :=
            if env.cacheUp = true then
              cacheDel (cacheDel s.cache "users:all") (userKey uid)
            else s.cache,
          dbConns := s.dbConns + 1,
          cacheConns := s.cacheConns + 1,
          dbCalls := s.dbCalls + 1 }⟩ := by
  by_cases hc : env.cacheUp = true <;> simp_all [delete_user, hdb, herr, hdel]

/-! ### Inversion and failure-frame lemmas -/

theorem create_user_201_inv (env : Env) (data : Option ReqBody) (now : String)
    (s : Sys) (h : (create_user env data now s).status = 201) :
    ∃ d u st, data = some d ∧ truthy d.name = true ∧ truthy d.email = true ∧
      env.dbUp = true ∧ env.dbErr = false ∧
      insertUser s.store (d.name.getD "") (d.email.getD "") now = .ok (u, st) ∧
      create_user env data now s =
        ⟨201, .oneUser u,
          { store := st,
            cache := if env.cacheUp = true then cacheDel s.cache "users:all" else s.cache,
            dbConns := s.dbConns + 1,
            cacheConns := s.cacheConns + 1,
            dbCalls := s.dbCalls + 1 }⟩ := by
  rcases data with _ | d
  · rw [create_user_invalid env none now s (Or.inl rfl)] at h; simp at h
  · cases hv : truthy d.name with
    | false =>
      rw [create_user_invalid env (some d) now s (Or.inr ⟨d, rfl, Or.inl hv⟩)] at h
      simp at h
    | true =>
      cases hv2 : truthy d.email with
      | false =>
        rw [create_user_invalid env (some d) now s (Or.inr ⟨d, rfl, Or.inr hv2⟩)] at h
        simp at h
      | true =>
        cases hdb : env.dbUp with
        | false => rw [create_user_dbDown env d now s hv hv2 hdb] at h; simp at h
        | true =>
          cases herr : env.dbErr with
          | true => rw [create_user_dbErr env d now s hv hv2 hdb herr] at h; simp at h
          | false =>
            cases hins : insertUser s.store (d.name.getD "") (d.email.getD "") now with
            | error e =>
              cases e
              rw [create_user_conflict env d now s hv hv2 hdb herr hins] at h
              simp at h
            | ok p =>
              obtain ⟨u, st⟩ := p
              exact ⟨d, u, st, rfl, hv, hv2, rfl, rfl, hins,
                create_user_ok env d now s u st hv hv2 hdb herr hins⟩

theorem update_user_200_inv (env : Env) (uid : Nat) (data : Option ReqBody)
    (s : Sys) (h : (update_user env uid data s).status = 200) :
    ∃ d u st, data = some d ∧
      (truthy d.name = true ∨ truthy d.email = true) ∧
      env.dbUp = true ∧ env.dbErr = false ∧
      updateUser s.store uid d.name d.email = .ok u st ∧
      update_user env uid data s =
        ⟨200, .oneUser u,
          { store := st,
            cache :=
              if env.cacheUp = true then
                cacheDel (cacheDel s.cache "users:all") (userKey uid)
              else s.cache,
            dbConns := s.dbConns + 1,
            cacheConns := s.cacheConns + 1,
            dbCalls := s.dbCalls + 1 }⟩ := by
  rcases data with _ | d
  · rw [update_user_invalid env uid none s (Or.inl rfl)] at h; simp at h
  · cases hv : truthy d.name with
    | false =>
      cases hv2 : truthy d.email with
      | false =>
        rw [update_user_invalid env uid (some d) s (Or.inr ⟨d, rfl, hv, hv2⟩)] at h
        simp at h
      | true =>
        cases hdb : env.dbUp with
        | false => rw [update_user_dbDown env uid d s (Or.inr hv2) hdb] at h; simp at h
        | true =>
          cases herr : env.dbErr with
          | true => rw [update_user_dbErr env uid d s (Or.inr hv2) hdb herr] at h; simp at h
          | false =>
            cases hupd : updateUser s.store uid d.name d.email with
            | notFound =>
              rw [update_user_notFound env uid d s (Or.inr hv2) hdb herr hupd] at h
              simp at h
            | conflict =>
              rw [update_user_conflict env uid d s (Or.inr hv2) hdb herr hupd] at h
              simp at h
            | ok u st =>
              exact ⟨d, u, st, rfl, Or.inr hv2, rfl, rfl, hupd,
                update_user_ok env uid d s u st (Or.inr hv2) hdb herr hupd⟩
    | true =>
      cases hdb : env.dbUp with
      | false => rw [update_user_dbDown env uid d s (Or.inl hv) hdb] at h; simp at h
      | true =>
        cases herr : env.dbErr with
        | true => rw [update_user_dbErr env uid d s (Or.inl hv) hdb herr] at h; simp at h
        | false =>
          cases hupd : updateUser s.store uid d.name d.email with
          | notFound =>
            rw [update_user_notFound env uid d s (Or.inl hv) hdb herr hupd] at h
            simp at h
          | conflict =>
            rw [update_user_conflict env uid d s (Or.inl hv) hdb herr hupd] at h
            simp at h
          | ok u st =>
            exact ⟨d, u, st, rfl, Or.inl hv, rfl, rfl, hupd,
              update_user_ok env uid d s u st (Or.inl hv) hdb herr hupd⟩

theorem delete_user_200_inv (env : Env) (uid : Nat) (s : Sys)
    (h : (delete_user env uid s).status = 200) :
    ∃ st, env.dbUp = true ∧ env.dbErr = false ∧
      deleteUserStore s.store uid = some st ∧
      delete_user env uid s =
        ⟨200, .msg "User deleted successfully",
          { store := st,
            cache :=
              if env.cacheUp = true then
                cacheDel (cacheDel s.cache "users:all") (userKey uid)
              else s.cache,
            dbConns := s.dbConns + 1,
            cacheConns := s.cacheConns + 1,
            dbCalls := s.dbCalls + 1 }⟩ := by
  cases hdb : env.dbUp with
  | false => rw [delete_user_dbDown env uid s hdb] at h; simp at h
  | true =>
    cases herr : env.dbErr with
    | true => rw [delete_user_dbErr env uid s hdb herr] at h; simp at h
    | false =>
      cases hdel : deleteUserStore s.store uid with
      | none => rw [delete_user_notFound env uid s hdb herr hdel] at h; simp at h
      | some st =>
        exact ⟨st, rfl, rfl, rfl, delete_user_ok env uid s st hdb herr hdel⟩

theorem create_user_fail_frame (env : Env) (data : Option ReqBody) (now : String)
    (s : Sys) (h : (create_user env data now s).status ≠ 201) :
    (create_user env data now s).sys.store = s.store ∧
    (create_user env data now s).sys.cache = s.cache ∧
    (create_user env data now s).sys.cacheConns = s.cacheConns := by
  rcases data with _ | d
  · rw [create_user_invalid env none now s (Or.inl rfl)]; exact ⟨rfl, rfl, rfl⟩
  · cases hv : truthy d.name with
    | false =>
      rw [create_user_invalid env (some d) now s (Or.inr ⟨d, rfl, Or.inl hv⟩)]
      exact ⟨rfl, rfl, rfl⟩
    | true =>
      cases hv2 : truthy d.email with
      | false =>
        rw [create_user_invalid env (some d) now s (Or.inr ⟨d, rfl, Or.inr hv2⟩)]
        exact ⟨rfl, rfl, rfl⟩
      | true =>
        cases hdb : env.dbUp with
        | false => rw [create_user_dbDown env d now s hv hv2 hdb]; exact ⟨rfl, rfl, rfl⟩
        | true =>
          cases herr : env.dbErr with
          | true => rw [create_user_dbErr env d now s hv hv2 hdb herr]; exact ⟨rfl, rfl, rfl⟩
          | false =>
            cases hins : insertUser s.store (d.name.getD "") (d.email.getD "") now with
            | error e =>
              cases e
              rw [create_user_conflict env d now s hv hv2 hdb herr hins]
              exact ⟨rfl, rfl, rfl⟩
            | ok p =>
              obtain ⟨u, st⟩ := p
              exact absurd (by rw [create_user_ok env d now s u st hv hv2 hdb herr hins]) h

theorem update_user_fail_frame (env : Env) (uid : Nat) (data : Option ReqBody)
    (s : Sys) (h : (update_user env uid data s).status ≠ 200) :
    (update_user env uid data s).sys.store = s.store ∧
    (update_user env uid data s).sys.cache = s.cache ∧
    (update_user env uid data s).sys.cacheConns = s.cacheConns := by
  rcases data with _ | d
  · rw [update_user_invalid env uid none s (Or.inl rfl)]; exact ⟨rfl, rfl, rfl⟩
  · by_cases hv : truthy d.name = true ∨ truthy d.email = true
    · cases hdb : env.dbUp with
      | false => rw [update_user_dbDown env uid d s hv hdb]; exact ⟨rfl, rfl, rfl⟩
      | true =>
        cases herr : env.dbErr with
        | true => rw [update_user_dbErr env uid d s hv hdb herr]; exact ⟨rfl, rfl, rfl⟩
        | false =>
          cases hupd : updateUser s.store uid d.name d.email with
          | notFound =>
            rw [update_user_notFound env uid d s hv hdb herr hupd]; exact ⟨rfl, rfl, rfl⟩
          | conflict =>
            rw [update_user_conflict env uid d s hv hdb herr hupd]; exact ⟨rfl, rfl, rfl⟩
          | ok u st =>
            exact absurd (by rw [update_user_ok env uid d s u st hv hdb herr hupd]) h
    · have h1 : truthy d.name = false := by
        cases hn : truthy d.name
        · rfl
        · exact absurd (Or.inl hn) hv
      have h2 : truthy d.email = false := by
        cases he : truthy d.email
        · rfl
        · exact absurd (Or.inr he) hv
      rw [update_user_invalid env uid (some d) s (Or.inr ⟨d, rfl, h1, h2⟩)]
      exact ⟨rfl, rfl, rfl⟩

theorem delete_user_fail_frame (env : Env) (uid : Nat) (s : Sys)
    (h : (delete_user env uid s).status ≠ 200) :
    (delete_user env uid s).sys.store = s.store ∧
    (delete_user env uid s).sys.cache = s.cache ∧
    (delete_user env uid s).sys.cacheConns = s.cacheConns := by
  cases hdb : env.dbUp with
  | false => rw [delete_user_dbDown env uid s hdb]; exact ⟨rfl, rfl, rfl⟩
  | true =>
    cases herr : env.dbErr with
    | true => rw [delete_user_dbErr env uid s hdb herr]; exact ⟨rfl, rfl, rfl⟩
    | false =>
      cases hdel : deleteUserStore s.store uid with
      | none => rw [delete_user_notFound env uid s hdb herr hdel]; exact ⟨rfl, rfl, rfl⟩
      | some st =>
        exact absurd (by rw [delete_user_ok env uid s st hdb herr hdel]) h

theorem cacheGet_del_none (c : Cache) (k k2 : String)
    (h : cacheGet c k = none) : cacheGet (cacheDel c k2) k = none := by
  induction c with
  | nil => rfl
  | cons e c ih =>
    rw [cacheGet_cons] at h
    by_cases hek : e.1 = k
    · rw [if_pos hek] at h; simp at h
    · rw [if_neg hek] at h
      rw [cacheDel_cons]
      by_cases he2 : e.1 = k2
      · rw [if_pos he2]; exact ih h
      · rw [if_neg he2, cacheGet_cons, if_neg hek]; exact ih h

/-! ### Claims -/

/-- Claim C1: for every successful write operation (create with status 201,
update or delete with status 200), the collection cache key "users:all" is
absent from the cache after the request — the handler deleted it — whenever
the cache is reachable. -/
theorem C1_write_deletes_collection_key (env : Env) (data du : Option ReqBody)
    (now : String) (uid uid2 : Nat) (s : Sys) (hc : env.cacheUp = true) :
    ((create_user env data now s).status = 201 →
      cacheGet (create_user env data now s).sys.cache "users:all" = none) ∧
    ((update_user env uid du s).status = 200 →
      cacheGet (update_user env uid du s).sys.cache "users:all" = none) ∧
    ((delete_user env uid2 s).status = 200 →
      cacheGet (delete_user env uid2 s).sys.cache "users:all" = none) := by
  refine ⟨fun h => ?_, fun h => ?_, fun h => ?_⟩
  · obtain ⟨d, u, st, _, _, _, _, _, _, heq⟩ := create_user_201_inv env data now s h
    rw [heq]
    simp only [hc, if_pos]
    exact cacheGet_del_self s.cache "users:all"
  · obtain ⟨d, u, st, _, _, _, _, _, heq⟩ := update_user_200_inv env uid du s h
    rw [heq]
    simp only [hc, if_pos]
    exact cacheGet_del_none _ _ _ (cacheGet_del_self s.cache "users:all")
  · obtain ⟨st, _, _, _, heq⟩ := delete_user_200_inv env uid2 s h
    rw [heq]
    simp only [hc, if_pos]
    exact cacheGet_del_none _ _ _ (cacheGet_del_self s.cache "users:all")

/-- Claim C1 witness: with the cache reachable and "users:all" initially
cached, a concrete successful create, update and delete each leave the key
absent. -/
theorem C1_write_deletes_collection_key_witness :
    (cacheGet (create_user ⟨true, true, false⟩ (some ⟨some "Bob", some "bob@x.io"⟩)
        "2024-01-02T00:00:00"
        ⟨⟨[⟨1, "Ada", "ada@x.io", "2024-01-01T00:00:00"⟩], 2⟩,
          [("users:all", .col [], 30)], 0, 0, 0⟩).sys.cache "users:all" = none) ∧
    (cacheGet (update_user ⟨true, true, false⟩ 1 (some ⟨some "Ada L.", none⟩)
        ⟨⟨[⟨1, "Ada", "ada@x.io", "2024-01-01T00:00:00"⟩], 2⟩,
          [("users:all", .col [], 30)], 0, 0, 0⟩).sys.cache "users:all" = none) ∧
    (cacheGet (delete_user ⟨true, true, false⟩ 1
        ⟨⟨[⟨1, "Ada", "ada@x.io", "2024-01-01T00:00:00"⟩], 2⟩,
          [("users:all", .col [], 30)], 0, 0, 0⟩).sys.cache "users:all" = none) :=
  ⟨(C1_write_deletes_collection_key ⟨true, true, false⟩
      (some ⟨some "Bob", some "bob@x.io"⟩) (some ⟨some "Ada L.", none⟩)
      "2024-01-02T00:00:00" 1 1
      ⟨⟨[⟨1, "Ada", "ada@x.io", "2024-01-01T00:00:00"⟩], 2⟩,
        [("users:all", .col [], 30)], 0, 0, 0⟩ rfl).1 (by decide),
   (C1_write_deletes_collection_key ⟨true, true, false⟩
      (some ⟨some "Bob", some "bob@x.io"⟩) (some ⟨some "Ada L.", none⟩)
      "2024-01-02T00:00:00" 1 1
      ⟨⟨[⟨1, "Ada", "ada@x.io", "2024-01-01T00:00:00"⟩], 2⟩,
        [("users:all", .col [], 30)], 0, 0, 0⟩ rfl).2.1 (by decide),
   (C1_write_deletes_collection_key ⟨true, true, false⟩
      (some ⟨some "Bob", some "bob@x.io"⟩) (some ⟨some "Ada L.", none⟩)
      "2024-01-02T00:00:00" 1 1
      ⟨⟨[⟨1, "Ada", "ada@x.io", "2024-01-01T00:00:00"⟩], 2⟩,
        [("users:all", .col [], 30)], 0, 0, 0⟩ rfl).2.2 (by decide)⟩

/-- Claim C2: a successful update or delete of user `i` leaves the per-item
key `user:<i>` absent from the reachable cache, while a successful create
leaves every key other than "users:all" exactly as it was (it deletes no
per-item key). -/
theorem C2_per_item_key_invalidation (env : Env) (data du : Option ReqBody)
    (now : String) (uid uid2 : Nat) (s : Sys) (hc : env.cacheUp = true) :
    ((update_user env uid du s).status = 200 →
      cacheGet (update_user env uid du s).sys.cache (userKey uid) = none) ∧
    ((delete_user env uid2 s).status = 200 →
      cacheGet (delete_user env uid2 s).sys.cache (userKey uid2) = none) ∧
    ((create_user env data now s).status = 201 →
      ∀ k, ¬ k = "users:all" →
        cacheGet (create_user env data now s).sys.cache k = cacheGet s.cache k) := by
  refine ⟨fun h => ?_, fun h => ?_, fun h k hk => ?_⟩
  · obtain ⟨d, u, st, _, _, _, _, _, heq⟩ := update_user_200_inv env uid du s h
    rw [heq]
    simp only [hc, if_pos]
    exact cacheGet_del_self _ _
  · obtain ⟨st, _, _, _, heq⟩ := delete_user_200_inv env uid2 s h
    rw [heq]
    simp only [hc, if_pos]
    exact cacheGet_del_self _ _
  · obtain ⟨d, u, st, _, _, _, _, _, _, heq⟩ := create_user_201_inv env data now s h
    rw [heq]
    simp only [hc, if_pos]
    exact cacheGet_del_ne s.cache k "users:all" hk

/-- Claim C2 witness: on a concrete state whose cache holds both keys, a
successful update and delete of user 1 remove "user:1", and a successful
create leaves "user:1" untouched. -/
theorem C2_per_item_key_invalidation_witness :
    (cacheGet (update_user ⟨true, true, false⟩ 1 (some ⟨some "Ada L.", none⟩)
        ⟨⟨[⟨1, "Ada", "ada@x.io", "2024-01-01T00:00:00"⟩], 2⟩,
          [("users:all", .col [], 30),
           ("user:1", .item ⟨1, "Ada", "ada@x.io", "2024-01-01T00:00:00"⟩, 60)],
          0, 0, 0⟩).sys.cache (userKey 1) = none) ∧
    (cacheGet (delete_user ⟨true, true, false⟩ 1
        ⟨⟨[⟨1, "Ada", "ada@x.io", "2024-01-01T00:00:00"⟩], 2⟩,
          [("users:all", .col [], 30),
           ("user:1", .item ⟨1, "Ada", "ada@x.io", "2024-01-01T00:00:00"⟩, 60)],
          0, 0, 0⟩).sys.cache (userKey 1) = none) ∧
    (cacheGet (create_user ⟨true, true, false⟩ (some ⟨some "Bob", some "bob@x.io"⟩)
        "2024-01-02T00:00:00"
        ⟨⟨[⟨1, "Ada", "ada@x.io", "2024-01-01T00:00:00"⟩], 2⟩,
          [("users:all", .col [], 30),
           ("user:1", .item ⟨1, "Ada", "ada@x.io", "2024-01-01T00:00:00"⟩, 60)],
          0, 0, 0⟩).sys.cache "user:1" =
      cacheGet
        [("users:all", .col [], 30),
         ("user:1", .item ⟨1, "Ada", "ada@x.io", "2024-01-01T00:00:00"⟩, 60)]
        "user:1") :=
  ⟨(C2_per_item_key_invalidation ⟨true, true, false⟩
      (some ⟨some "Bob", some "bob@x.io"⟩) (some ⟨some "Ada L.", none⟩)
      "2024-01-02T00:00:00" 1 1
      ⟨⟨[⟨1, "Ada", "ada@x.io", "2024-01-01T00:00:00"⟩], 2⟩,
        [("users:all", .col [], 30),
         ("user:1", .item ⟨1, "Ada", "ada@x.io", "2024-01-01T00:00:00"⟩, 60)],
        0, 0, 0⟩ rfl).1 (by decide),
   (C2_per_item_key_invalidation ⟨true, true, false⟩
      (some ⟨some "Bob", some "bob@x.io"⟩) (some ⟨some "Ada L.", none⟩)
      "2024-01-02T00:00:00" 1 1
      ⟨⟨[⟨1, "Ada", "ada@x.io", "2024-01-01T00:00:00"⟩], 2⟩,
        [("users:all", .col [], 30),
         ("user:1", .item ⟨1, "Ada", "ada@x.io", "2024-01-01T00:00:00"⟩, 60)],
        0, 0, 0⟩ rfl).2.1 (by decide),
   (C2_per_item_key_invalidation ⟨true, true, false⟩
      (some ⟨some "Bob", some "bob@x.io"⟩) (some ⟨some "Ada L.", none⟩)
      "2024-01-02T00:00:00" 1 1
      ⟨⟨[⟨1, "Ada", "ada@x.io", "2024-01-01T00:00:00"⟩], 2⟩,
        [("users:all", .col [], 30),
         ("user:1", .item ⟨1, "Ada", "ada@x.io", "2024-01-01T00:00:00"⟩, 60)],
        0, 0, 0⟩ rfl).2.2 (by decide) "user:1" (by decide)⟩

/-- Claim C3: on any write whose store mutation does not succeed (any
non-success status: validation error, connection failure, conflict,
not-found, or a generic store exception), the store is unchanged, the cache
is unchanged — so no invalidation was issued — and the cache was never even
contacted.  Together with the success characterizations this shows
invalidation happens only after a confirmed store mutation. -/
theorem C3_failed_write_no_invalidation (env : Env) (data du : Option ReqBody)
    (now : String) (uid uid2 : Nat) (s : Sys) :
    ((create_user env data now s).status ≠ 201 →
      (create_user env data now s).sys.store = s.store ∧
      (create_user env data now s).sys.cache = s.cache ∧
      (create_user env data now s).sys.cacheConns = s.cacheConns) ∧
    ((update_user env uid du s).status ≠ 200 →
      (update_user env uid du s).sys.store = s.store ∧
      (update_user env uid du s).sys.cache = s.cache ∧
      (update_user env uid du s).sys.cacheConns = s.cacheConns) ∧
    ((delete_user env uid2 s).status ≠ 200 →
      (delete_user env uid2 s).sys.store = s.store ∧
      (delete_user env uid2 s).sys.cache = s.cache ∧
      (delete_user env uid2 s).sys.cacheConns = s.cacheConns) :=
  ⟨fun h => create_user_fail_frame env data now s h,
   fun h => update_user_fail_frame env uid du s h,
   fun h => delete_user_fail_frame env uid2 s h⟩

/-- Claim C3 witness: a duplicate-email create, an update of an unknown id
and a delete of an unknown id each leave store, cache and cache-connection
count unchanged on a concrete state. -/
theorem C3_failed_write_no_invalidation_witness :
    ((create_user ⟨true, true, false⟩ (some ⟨some "Eve", some "ada@x.io"⟩)
        "2024-01-02T00:00:00"
        ⟨⟨[⟨1, "Ada", "ada@x.io", "2024-01-01T00:00:00"⟩], 2⟩,
          [("users:all", .col [], 30)], 0, 0, 0⟩).sys.store =
      ⟨[⟨1, "Ada", "ada@x.io", "2024-01-01T00:00:00"⟩], 2⟩ ∧
     (create_user ⟨true, true, false⟩ (some ⟨some "Eve", some "ada@x.io"⟩)
        "2024-01-02T00:00:00"
        ⟨⟨[⟨1, "Ada", "ada@x.io", "2024-01-01T00:00:00"⟩], 2⟩,
          [("users:all", .col [], 30)], 0, 0, 0⟩).sys.cache =
      [("users:all", .col [], 30)] ∧
     (create_user ⟨true, true, false⟩ (some ⟨some "Eve", some "ada@x.io"⟩)
        "2024-01-02T00:00:00"
        ⟨⟨[⟨1, "Ada", "ada@x.io", "2024-01-01T00:00:00"⟩], 2⟩,
          [("users:all", .col [], 30)], 0, 0, 0⟩).sys.cacheConns = 0) ∧
    ((update_user ⟨true, true, false⟩ 7 (some ⟨some "X", none⟩)
        ⟨⟨[⟨1, "Ada", "ada@x.io", "2024-01-01T00:00:00"⟩], 2⟩,
          [("users:all", .col [], 30)], 0, 0, 0⟩).sys.store =
      ⟨[⟨1, "Ada", "ada@x.io", "2024-01-01T00:00:00"⟩], 2⟩ ∧
     (update_user ⟨true, true, false⟩ 7 (some ⟨some "X", none⟩)
        ⟨⟨[⟨1, "Ada", "ada@x.io", "2024-01-01T00:00:00"⟩], 2⟩,
          [("users:all", .col [], 30)], 0, 0, 0⟩).sys.cache =
      [("users:all", .col [], 30)] ∧
     (update_user ⟨true, true, false⟩ 7 (some ⟨some "X", none⟩)
        ⟨⟨[⟨1, "Ada", "ada@x.io", "2024-01-01T00:00:00"⟩], 2⟩,
          [("users:all", .col [], 30)], 0, 0, 0⟩).sys.cacheConns = 0) ∧
    ((delete_user ⟨true, true, false⟩ 7
        ⟨⟨[⟨1, "Ada", "ada@x.io", "2024-01-01T00:00:00"⟩], 2⟩,
          [("users:all", .col [], 30)], 0, 0, 0⟩).sys.store =
      ⟨[⟨1, "Ada", "ada@x.io", "2024-01-01T00:00:00"⟩], 2⟩ ∧
     (delete_user ⟨true, true, false⟩ 7
        ⟨⟨[⟨1, "Ada", "ada@x.io", "2024-01-01T00:00:00"⟩], 2⟩,
          [("users:all", .col [], 30)], 0, 0, 0⟩).sys.cache =
      [("users:all", .col [], 30)] ∧
     (delete_user ⟨true, true, false⟩ 7
        ⟨⟨[⟨1, "Ada", "ada@x.io", "2024-01-01T00:00:00"⟩], 2⟩,
          [("users:all", .col [], 30)], 0, 0, 0⟩).sys.cacheConns = 0) :=
  ⟨(C3_failed_write_no_invalidation ⟨true, true, false⟩
      (some ⟨some "Eve", some "ada@x.io"⟩) (some ⟨some "X", none⟩)
      "2024-01-02T00:00:00" 7 7
      ⟨⟨[⟨1, "Ada", "ada@x.io", "2024-01-01T00:00:00"⟩], 2⟩,
        [("users:all", .col [], 30)], 0, 0, 0⟩).1 (by decide),
   (C3_failed_write_no_invalidation ⟨true, true, false⟩
      (some ⟨some "Eve", some "ada@x.io"⟩) (some ⟨some "X", none⟩)
      "2024-01-02T00:00:00" 7 7
      ⟨⟨[⟨1, "Ada", "ada@x.io", "2024-01-01T00:00:00"⟩], 2⟩,
        [("users:all", .col [], 30)], 0, 0, 0⟩).2.1 (by decide),
   (C3_failed_write_no_invalidation ⟨true, true, false⟩
      (some ⟨some "Eve", some "ada@x.io"⟩) (some ⟨some "X", none⟩)
      "2024-01-02T00:00:00" 7 7
      ⟨⟨[⟨1, "Ada", "ada@x.io", "2024-01-01T00:00:00"⟩], 2⟩,
        [("users:all", .col [], 30)], 0, 0, 0⟩).2.2 (by decide)⟩

/-- Claim C4: with the cache reachable, a collection or single-item read
served from the cache returns the cached value verbatim with status 200 and
touches neither the store nor the cache (only a cache connection is made);
on a miss with the store available, the collection read stores "users:all"
with expiry 30 and the single-item read of an existing id stores
"user:<id>" with expiry 60. -/
theorem C4_read_populates_only_on_miss (env : Env) (uid : Nat) (s : Sys)
    (hc : env.cacheUp = true) :
    (∀ v, cacheGet s.cache "users:all" = some v →
      get_users env s =
        ⟨200, respOfCacheVal v, { s with cacheConns := s.cacheConns + 1 }⟩) ∧
    (cacheGet s.cache "users:all" = none → env.dbUp = true → env.dbErr = false →
      cacheGetFull (get_users env s).sys.cache "users:all" =
        some (.col (sortById s.store.rows), 30)) ∧
    (∀ w, cacheGet s.cache (userKey uid) = some w →
      get_user env uid s =
        ⟨200, respOfCacheVal w, { s with cacheConns := s.cacheConns + 1 }⟩) ∧
    (∀ u, cacheGet s.cache (userKey uid) = none → env.dbUp = true →
      env.dbErr = false → findUser s.store uid = some u →
      cacheGetFull (get_user env uid s).sys.cache (userKey uid) =
        some (.item u, 60)) := by
  refine ⟨fun v hv => get_users_hit env s v hc hv,
          fun hm hdb herr => ?_,
          fun w hw => get_user_hit env uid s w hc hw,
          fun u hm hdb herr hf => ?_⟩
  · rw [get_users_miss_ok env s (Or.inr hm) hdb herr]
    simp only [hc, if_pos]
    exact cacheGetFull_setex_self _ _ _ _
  · rw [get_user_miss_found env uid s u (Or.inr hm) hdb herr hf]
    simp only [hc, if_pos]
    exact cacheGetFull_setex_self _ _ _ _

/-- Claim C4 witness: on concrete states, a cache hit of each read returns
the cached value verbatim with the state untouched apart from the cache
connection count, and a miss populates the key with expiry 30 resp. 60. -/
theorem C4_read_populates_only_on_miss_witness :
    (get_users ⟨true, true, false⟩
        ⟨⟨[⟨1, "Ada", "ada@x.io", "2024-01-01T00:00:00"⟩], 2⟩,
          [("users:all", .col [], 30)], 0, 0, 0⟩ =
      ⟨200, respOfCacheVal (.col []),
        ⟨⟨[⟨1, "Ada", "ada@x.io", "2024-01-01T00:00:00"⟩], 2⟩,
          [("users:all", .col [], 30)], 0, 1, 0⟩⟩) ∧
    (cacheGetFull (get_users ⟨true, true, false⟩
        ⟨⟨[⟨1, "Ada", "ada@x.io", "2024-01-01T00:00:00"⟩], 2⟩, [], 0, 0, 0⟩).sys.cache
        "users:all" =
      some (.col (sortById [⟨1, "Ada", "ada@x.io", "2024-01-01T00:00:00"⟩]), 30)) ∧
    (get_user ⟨true, true, false⟩ 1
        ⟨⟨[⟨1, "Ada", "ada@x.io", "2024-01-01T00:00:00"⟩], 2⟩,
          [("user:1", .item ⟨1, "Ada", "ada@x.io", "2024-01-01T00:00:00"⟩, 60)],
          0, 0, 0⟩ =
      ⟨200, respOfCacheVal (.item ⟨1, "Ada", "ada@x.io", "2024-01-01T00:00:00"⟩),
        ⟨⟨[⟨1, "Ada", "ada@x.io", "2024-01-01T00:00:00"⟩], 2⟩,
          [("user:1", .item ⟨1, "Ada", "ada@x.io", "2024-01-01T00:00:00"⟩, 60)],
          0, 1, 0⟩⟩) ∧
    (cacheGetFull (get_user ⟨true, true, false⟩ 1
        ⟨⟨[⟨1, "Ada", "ada@x.io", "2024-01-01T00:00:00"⟩], 2⟩, [], 0, 0, 0⟩).sys.cache
        (userKey 1) =
      some (.item ⟨1, "Ada", "ada@x.io", "2024-01-01T00:00:00"⟩, 60)) :=
  ⟨(C4_read_populates_only_on_miss ⟨true, true, false⟩ 1
      ⟨⟨[⟨1, "Ada", "ada@x.io", "2024-01-01T00:00:00"⟩], 2⟩,
        [("users:all", .col [], 30)], 0, 0, 0⟩ rfl).1 (.col []) (by decide),
   (C4_read_populates_only_on_miss ⟨true, true, false⟩ 1
      ⟨⟨[⟨1, "Ada", "ada@x.io", "2024-01-01T00:00:00"⟩], 2⟩, [], 0, 0, 0⟩ rfl).2.1
      (by decide) rfl rfl,
   (C4_read_populates_only_on_miss ⟨true, true, false⟩ 1
      ⟨⟨[⟨1, "Ada", "ada@x.io", "2024-01-01T00:00:00"⟩], 2⟩,
        [("user:1", .item ⟨1, "Ada", "ada@x.io", "2024-01-01T00:00:00"⟩, 60)],
        0, 0, 0⟩ rfl).2.2.1
      (.item ⟨1, "Ada", "ada@x.io", "2024-01-01T00:00:00"⟩) (by decide),
   (C4_read_populates_only_on_miss ⟨true, true, false⟩ 1
      ⟨⟨[⟨1, "Ada", "ada@x.io", "2024-01-01T00:00:00"⟩], 2⟩, [], 0, 0, 0⟩ rfl).2.2.2
      ⟨1, "Ada", "ada@x.io", "2024-01-01T00:00:00"⟩ (by decide) rfl rfl (by decide)⟩

/-- Claim C5: a single-item read of an id absent from the store, on a cache
miss (or with the cache down), returns 404 "User not found" and leaves the
cache exactly as it was — no entry is populated for that id. -/
theorem C5_read_absent_id_not_cached (env : Env) (uid : Nat) (s : Sys)
    (hfind : findUser s.store uid = none)
    (hmiss : env.cacheUp = false ∨ cacheGet s.cache (userKey uid) = none)
    (hdb : env.dbUp = true) (herr : env.dbErr = false) :
    (get_user env uid s).status = 404 ∧
    (get_user env uid s).body = .err "User not found" ∧
    (get_user env uid s).sys.cache = s.cache := by
  rw [get_user_miss_notFound env uid s hmiss hdb herr hfind]
  exact ⟨rfl, rfl, rfl⟩

/-- Claim C5 witness: reading id 7, absent from a concrete store, yields
404 and an unchanged cache. -/
theorem C5_read_absent_id_not_cached_witness :
    (get_user ⟨true, true, false⟩ 7
        ⟨⟨[⟨1, "Ada", "ada@x.io", "2024-01-01T00:00:00"⟩], 2⟩,
          [("users:all", .col [], 30)], 0, 0, 0⟩).status = 404 ∧
    (get_user ⟨true, true, false⟩ 7
        ⟨⟨[⟨1, "Ada", "ada@x.io", "2024-01-01T00:00:00"⟩], 2⟩,
          [("users:all", .col [], 30)], 0, 0, 0⟩).body = .err "User not found" ∧
    (get_user ⟨true, true, false⟩ 7
        ⟨⟨[⟨1, "Ada", "ada@x.io", "2024-01-01T00:00:00"⟩], 2⟩,
          [("users:all", .col [], 30)], 0, 0, 0⟩).sys.cache =
      [("users:all", .col [], 30)] :=
  C5_read_absent_id_not_cached ⟨true, true, false⟩ 7
    ⟨⟨[⟨1, "Ada", "ada@x.io", "2024-01-01T00:00:00"⟩], 2⟩,
      [("users:all", .col [], 30)], 0, 0, 0⟩
    (by decide) (Or.inr (by decide)) rfl rfl

/-- Claim C6: with the cache unreachable, no handler surfaces a cache
error.  Both reads go straight to the store and return 200 with the store
contents; every write that the store confirms still returns its success
status, mutates the store, and silently skips invalidation (the cache is
left exactly as it was). -/
theorem C6_cache_unreachable_degrades_silently (env : Env)
    (uid uid2 uid3 : Nat) (s : Sys) (hc : env.cacheUp = false)
    (hdb : env.dbUp = true) (herr : env.dbErr = false) :
    (get_users env s =
      ⟨200, .usersList (sortById s.store.rows),
        { s with
            cacheConns := s.cacheConns + 1
            dbConns := s.dbConns + 1
            dbCalls := s.dbCalls + 1 }⟩) ∧
    (∀ u, findUser s.store uid = some u →
      get_user env uid s =
        ⟨200, .oneUser u,
          { s with
              cacheConns := s.cacheConns + 1
              dbConns := s.dbConns + 1
              dbCalls := s.dbCalls + 1 }⟩) ∧
    (∀ d u st now, truthy d.name = true → truthy d.email = true →
      insertUser s.store (d.name.getD "") (d.email.getD "") now = .ok (u, st) →
      create_user env (some d) now s =
        ⟨201, .oneUser u,
          { store := st,
            cache := s.cache,
            dbConns := s.dbConns + 1,
            cacheConns := s.cacheConns + 1,
            dbCalls := s.dbCalls + 1 }⟩) ∧
    (∀ d u st, (truthy d.name = true ∨ truthy d.email = true) →
      updateUser s.store uid2 d.name d.email = .ok u st →
      update_user env uid2 (some d) s =
        ⟨200, .oneUser u,
          { store := st,
            cache := s.cache,
            dbConns := s.dbConns + 1,
            cacheConns := s.cacheConns + 1,
            dbCalls := s.dbCalls + 1 }⟩) ∧
    (∀ st, deleteUserStore s.store uid3 = some st →
      delete_user env uid3 s =
        ⟨200, .msg "User deleted successfully",
          { store := st,
            cache := s.cache,
            dbConns := s.dbConns + 1,
            cacheConns := s.cacheConns + 1,
            dbCalls := s.dbCalls + 1 }⟩) := by
  refine ⟨?_, fun u hf => ?_, fun d u st now hv hv2 hins => ?_,
          fun d u st hv hupd => ?_, fun st hdel => ?_⟩
  · rw [get_users_miss_ok env s (Or.inl hc) hdb herr]; simp [hc]
  · rw [get_user_miss_found env uid s u (Or.inl hc) hdb herr hf]; simp [hc]
  · rw [create_user_ok env d now s u st hv hv2 hdb herr hins]; simp [hc]
  · rw [update_user_ok env uid2 d s u st hv hdb herr hupd]; simp [hc]
  · rw [delete_user_ok env uid3 s st hdb herr hdel]; simp [hc]

/-- Claim C6 witness: with the cache down on a concrete state, both reads
return 200 from the store and a concrete create, update and delete all
succeed with the cache untouched. -/
theorem C6_cache_unreachable_degrades_silently_witness :
    (get_users ⟨true, false, false⟩
        ⟨⟨[⟨1, "Ada", "ada@x.io", "2024-01-01T00:00:00"⟩], 2⟩,
          [("users:all", .col [], 30)], 0, 0, 0⟩ =
      ⟨200, .usersList (sortById [⟨1, "Ada", "ada@x.io", "2024-01-01T00:00:00"⟩]),
        ⟨⟨[⟨1, "Ada", "ada@x.io", "2024-01-01T00:00:00"⟩], 2⟩,
          [("users:all", .col [], 30)], 1, 1, 1⟩⟩) ∧
    (get_user ⟨true, false, false⟩ 1
        ⟨⟨[⟨1, "Ada", "ada@x.io", "2024-01-01T00:00:00"⟩], 2⟩,
          [("users:all", .col [], 30)], 0, 0, 0⟩ =
      ⟨200, .oneUser ⟨1, "Ada", "ada@x.io", "2024-01-01T00:00:00"⟩,
        ⟨⟨[⟨1, "Ada", "ada@x.io", "2024-01-01T00:00:00"⟩], 2⟩,
          [("users:all", .col [], 30)], 1, 1, 1⟩⟩) ∧
    (create_user ⟨true, false, false⟩ (some ⟨some "Bob", some "bob@x.io"⟩)
        "2024-01-02T00:00:00"
        ⟨⟨[⟨1, "Ada", "ada@x.io", "2024-01-01T00:00:00"⟩], 2⟩,
          [("users:all", .col [], 30)], 0, 0, 0⟩ =
      ⟨201, .oneUser ⟨2, "Bob", "bob@x.io", "2024-01-02T00:00:00"⟩,
        ⟨⟨[⟨1, "Ada", "ada@x.io", "2024-01-01T00:00:00"⟩,
           ⟨2, "Bob", "bob@x.io", "2024-01-02T00:00:00"⟩], 3⟩,
          [("users:all", .col [], 30)], 1, 1, 1⟩⟩) ∧
    (update_user ⟨true, false, false⟩ 1 (some ⟨some "Ada L.", none⟩)
        ⟨⟨[⟨1, "Ada", "ada@x.io", "2024-01-01T00:00:00"⟩], 2⟩,
          [("users:all", .col [], 30)], 0, 0, 0⟩ =
      ⟨200, .oneUser ⟨1, "Ada L.", "ada@x.io", "2024-01-01T00:00:00"⟩,
        ⟨⟨[⟨1, "Ada L.", "ada@x.io", "2024-01-01T00:00:00"⟩], 2⟩,
          [("users:all", .col [], 30)], 1, 1, 1⟩⟩) ∧
    (delete_user ⟨true, false, false⟩ 1
        ⟨⟨[⟨1, "Ada", "ada@x.io", "2024-01-01T00:00:00"⟩], 2⟩,
          [("users:all", .col [], 30)], 0, 0, 0⟩ =
      ⟨200, .msg "User deleted successfully",
        ⟨⟨[], 2⟩, [("users:all", .col [], 30)], 1, 1, 1⟩⟩) :=
  ⟨(C6_cache_unreachable_degrades_silently ⟨true, false, false⟩ 1 1 1
      ⟨⟨[⟨1, "Ada", "ada@x.io", "2024-01-01T00:00:00"⟩], 2⟩,
        [("users:all", .col [], 30)], 0, 0, 0⟩ rfl rfl rfl).1,
   (C6_cache_unreachable_degrades_silently ⟨true, false, false⟩ 1 1 1
      ⟨⟨[⟨1, "Ada", "ada@x.io", "2024-01-01T00:00:00"⟩], 2⟩,
        [("users:all", .col [], 30)], 0, 0, 0⟩ rfl rfl rfl).2.1
      ⟨1, "Ada", "ada@x.io", "2024-01-01T00:00:00"⟩ (by decide),
   (C6_cache_unreachable_degrades_silently ⟨true, false, false⟩ 1 1 1
      ⟨⟨[⟨1, "Ada", "ada@x.io", "2024-01-01T00:00:00"⟩], 2⟩,
        [("users:all", .col [], 30)], 0, 0, 0⟩ rfl rfl rfl).2.2.1
      ⟨some "Bob", some "bob@x.io"⟩ ⟨2, "Bob", "bob@x.io", "2024-01-02T00:00:00"⟩
      ⟨[⟨1, "Ada", "ada@x.io", "2024-01-01T00:00:00"⟩,
        ⟨2, "Bob", "bob@x.io", "2024-01-02T00:00:00"⟩], 3⟩
      "2024-01-02T00:00:00" (by decide) (by decide) rfl,
   (C6_cache_unreachable_degrades_silently ⟨true, false, false⟩ 1 1 1
      ⟨⟨[⟨1, "Ada", "ada@x.io", "2024-01-01T00:00:00"⟩], 2⟩,
        [("users:all", .col [], 30)], 0, 0, 0⟩ rfl rfl rfl).2.2.2.1
      ⟨some "Ada L.", none⟩ ⟨1, "Ada L.", "ada@x.io", "2024-01-01T00:00:00"⟩
      ⟨[⟨1, "Ada L.", "ada@x.io", "2024-01-01T00:00:00"⟩], 2⟩
      (Or.inl (by decide)) (by decide),
   (C6_cache_unreachable_degrades_silently ⟨true, false, false⟩ 1 1 1
      ⟨⟨[⟨1, "Ada", "ada@x.io", "2024-01-01T00:00:00"⟩], 2⟩,
        [("users:all", .col [], 30)], 0, 0, 0⟩ rfl rfl rfl).2.2.2.2
      ⟨[], 2⟩ (by decide)⟩

/-- Claim C7: a create request whose body is absent, or whose name or email
is missing or empty, returns the 400 validation error with the system state
fully unchanged — in particular no store or cache connection is attempted
and nothing is mutated (all counters are those of `s`). -/
theorem C7_create_validation_short_circuits (env : Env) (data : Option ReqBody)
    (now : String) (s : Sys)
    (h : data = none ∨
      ∃ d, data = some d ∧ (truthy d.name = false ∨ truthy d.email = false)) :
    create_user env data now s = ⟨400, .err "Name and email are required", s⟩ :=
  create_user_invalid env data now s h

/-- Claim C7 witness: a concrete create with an empty name is rejected with
400 and the state — store, cache and all connection counters — is returned
unchanged. -/
theorem C7_create_validation_short_circuits_witness :
    create_user ⟨true, true, false⟩ (some ⟨some "", some "x@y.io"⟩)
        "2024-01-02T00:00:00"
        ⟨⟨[⟨1, "Ada", "ada@x.io", "2024-01-01T00:00:00"⟩], 2⟩,
          [("users:all", .col [], 30)], 0, 0, 0⟩ =
      ⟨400, .err "Name and email are required",
        ⟨⟨[⟨1, "Ada", "ada@x.io", "2024-01-01T00:00:00"⟩], 2⟩,
          [("users:all", .col [], 30)], 0, 0, 0⟩⟩ :=
  C7_create_validation_short_circuits ⟨true, true, false⟩
    (some ⟨some "", some "x@y.io"⟩) "2024-01-02T00:00:00"
    ⟨⟨[⟨1, "Ada", "ada@x.io", "2024-01-01T00:00:00"⟩], 2⟩,
      [("users:all", .col [], 30)], 0, 0, 0⟩
    (Or.inr ⟨⟨some "", some "x@y.io"⟩, rfl, Or.inl rfl⟩)

/-- Claim C8: creating a user with an email already held by exactly one
stored row yields the conflict response — 400 with the dedicated
"Email already exists" body, distinct from the generic-failure bodies —
and afterwards the store still holds exactly one row with that email. -/
theorem C8_duplicate_email_conflict (env : Env) (d : ReqBody) (now : String)
    (s : Sys) (e : String) (hde : d.email = some e)
    (hv : truthy d.name = true) (hv2 : truthy d.email = true)
    (hdb : env.dbUp = true) (herr : env.dbErr = false)
    (hone : (s.store.rows.filter (fun u => u.email = e)).length = 1) :
    create_user env (some d) now s =
      ⟨400, .err "Email already exists",
        { s with
            dbConns := s.dbConns + 1
            dbCalls := s.dbCalls + 1 }⟩ ∧
    ((create_user env (some d) now s).sys.store.rows.filter
        (fun u => u.email = e)).length = 1 := by
  rcases hx : s.store.rows.filter (fun u => u.email = e) with _ | ⟨x, xs⟩
  · rw [hx] at hone; simp at hone
  · have hmem : x ∈ s.store.rows.filter (fun u => u.email = e) := by
      rw [hx]; exact List.mem_cons_self x xs
    have hmem2 := List.mem_filter.mp hmem
    have hany : s.store.rows.any (fun u => u.email = d.email.getD "") = true := by
      rw [hde]
      simp only [Option.getD_some, List.any_eq_true]
      exact ⟨x, hmem2.1, hmem2.2⟩
    have hins : insertUser s.store (d.name.getD "") (d.email.getD "") now = .error () := by
      simp [insertUser, hany]
    refine ⟨create_user_conflict env d now s hv hv2 hdb herr hins, ?_⟩
    rw [create_user_conflict env d now s hv hv2 hdb herr hins]
    exact hone

/-- Claim C8 witness: on a concrete store holding exactly one row with
email "ada@x.io", a second create with that email returns the conflict
response and the row count for that email is still one. -/
theorem C8_duplicate_email_conflict_witness :
    (create_user ⟨true, true, false⟩ (some ⟨some "Eve", some "ada@x.io"⟩)
        "2024-01-02T00:00:00"
        ⟨⟨[⟨1, "Ada", "ada@x.io", "2024-01-01T00:00:00"⟩], 2⟩, [], 0, 0, 0⟩ =
      ⟨400, .err "Email already exists",
        ⟨⟨[⟨1, "Ada", "ada@x.io", "2024-01-01T00:00:00"⟩], 2⟩, [], 1, 0, 1⟩⟩) ∧
    ((create_user ⟨true, true, false⟩ (some ⟨some "Eve", some "ada@x.io"⟩)
        "2024-01-02T00:00:00"
        ⟨⟨[⟨1, "Ada", "ada@x.io", "2024-01-01T00:00:00"⟩], 2⟩,
          [], 0, 0, 0⟩).sys.store.rows.filter
        (fun u => u.email = "ada@x.io")).length = 1 :=
  C8_duplicate_email_conflict ⟨true, true, false⟩ ⟨some "Eve", some "ada@x.io"⟩
    "2024-01-02T00:00:00"
    ⟨⟨[⟨1, "Ada", "ada@x.io", "2024-01-01T00:00:00"⟩], 2⟩, [], 0, 0, 0⟩
    "ada@x.io" rfl (by decide) (by decide) rfl rfl (by decide)

/-- Claim C9 counterexample: the body {"name": "", "email": absent} has the
field 'name' present, yet the update handler rejects it with the 400
validation error and never proceeds to the store (no connection attempted),
refuting "whenever at least one of them is present, validation passes and
the request proceeds to the store". -/
theorem C9_counterexample_name_present_rejected :
    (⟨some "", none⟩ : ReqBody).name.isSome = true ∧
    (update_user ⟨true, true, false⟩ 1 (some ⟨some "", none⟩)
        ⟨⟨[⟨1, "Ada", "ada@x.io", "2024-01-01T00:00:00"⟩], 2⟩, [], 0, 0, 0⟩).status = 400 ∧
    (update_user ⟨true, true, false⟩ 1 (some ⟨some "", none⟩)
        ⟨⟨[⟨1, "Ada", "ada@x.io", "2024-01-01T00:00:00"⟩], 2⟩, [], 0, 0, 0⟩).body =
      .err "Name or email is required" ∧
    (update_user ⟨true, true, false⟩ 1 (some ⟨some "", none⟩)
        ⟨⟨[⟨1, "Ada", "ada@x.io", "2024-01-01T00:00:00"⟩], 2⟩, [], 0, 0, 0⟩).sys.dbConns = 0 := by
  exact ⟨rfl, by decide, by decide, by decide⟩

/-- Claim C9 (amended): the update handler returns the 400 validation error
exactly when the body is absent or neither 'name' nor 'email' carries a
non-empty (truthy) value; whenever at least one of them is non-empty,
validation passes — the handler attempts a store connection and its
response is never the validation-error body. -/
theorem C9_update_validation_truthiness (env : Env) (uid : Nat)
    (data : Option ReqBody) (s : Sys) :
    ((data = none ∨
        ∃ d, data = some d ∧ truthy d.name = false ∧ truthy d.email = false) →
      update_user env uid data s = ⟨400, .err "Name or email is required", s⟩) ∧
    (∀ d, data = some d → (truthy d.name = true ∨ truthy d.email = true) →
      (update_user env uid data s).sys.dbConns = s.dbConns + 1 ∧
      (update_user env uid data s).body ≠ .err "Name or email is required") := by
  refine ⟨update_user_invalid env uid data s, fun d hd hv => ?_⟩
  subst hd
  cases hdb : env.dbUp with
  | false => rw [update_user_dbDown env uid d s hv hdb]; exact ⟨rfl, by simp⟩
  | true =>
    cases herr : env.dbErr with
    | true => rw [update_user_dbErr env uid d s hv hdb herr]; exact ⟨rfl, by simp⟩
    | false =>
      cases hupd : updateUser s.store uid d.name d.email with
      | notFound =>
        rw [update_user_notFound env uid d s hv hdb herr hupd]; exact ⟨rfl, by simp⟩
      | conflict =>
        rw [update_user_conflict env uid d s hv hdb herr hupd]; exact ⟨rfl, by simp⟩
      | ok u st =>
        rw [update_user_ok env uid d s u st hv hdb herr hupd]
        exact ⟨rfl, by simp⟩

/-- Claim C9 witness: a body with neither field truthy is rejected with the
state unchanged, and a concrete body with a non-empty name passes
validation and reaches the store connection. -/
theorem C9_update_validation_truthiness_witness :
    (update_user ⟨true, true, false⟩ 1 (some ⟨some "", none⟩)
        ⟨⟨[⟨1, "Ada", "ada@x.io", "2024-01-01T00:00:00"⟩], 2⟩, [], 0, 0, 0⟩ =
      ⟨400, .err "Name or email is required",
        ⟨⟨[⟨1, "Ada", "ada@x.io", "2024-01-01T00:00:00"⟩], 2⟩, [], 0, 0, 0⟩⟩) ∧
    ((update_user ⟨true, true, false⟩ 1 (some ⟨some "Ada L.", none⟩)
        ⟨⟨[⟨1, "Ada", "ada@x.io", "2024-01-01T00:00:00"⟩], 2⟩, [], 0, 0, 0⟩).sys.dbConns = 0 + 1 ∧
     (update_user ⟨true, true, false⟩ 1 (some ⟨some "Ada L.", none⟩)
        ⟨⟨[⟨1, "Ada", "ada@x.io", "2024-01-01T00:00:00"⟩], 2⟩, [], 0, 0, 0⟩).body ≠
       .err "Name or email is required") :=
  ⟨(C9_update_validation_truthiness ⟨true, true, false⟩ 1 (some ⟨some "", none⟩)
      ⟨⟨[⟨1, "Ada", "ada@x.io", "2024-01-01T00:00:00"⟩], 2⟩, [], 0, 0, 0⟩).1
      (Or.inr ⟨⟨some "", none⟩, rfl, rfl, rfl⟩),
   (C9_update_validation_truthiness ⟨true, true, false⟩ 1 (some ⟨some "Ada L.", none⟩)
      ⟨⟨[⟨1, "Ada", "ada@x.io", "2024-01-01T00:00:00"⟩], 2⟩, [], 0, 0, 0⟩).2
      ⟨some "Ada L.", none⟩ rfl (Or.inl (by decide))⟩

theorem find?_map_replace (rows : List User) (uid : Nat) (u u2 : User)
    (hfind : rows.find? (fun v => v.id = uid) = some u) (hid : u2.id = uid) :
    (rows.map (fun v => if v.id = uid then u2 else v)).find?
        (fun v => v.id = uid) = some u2 := by
  induction rows with
  | nil => simp at hfind
  | cons w rows ih =>
    by_cases hw : w.id = uid
    · simp [List.find?_cons, hw, hid]
    · rw [List.find?_cons_of_neg _ (by simp [hw])] at hfind
      rw [List.map_cons]
      rw [if_neg hw, List.find?_cons_of_neg _ (by simp [hw])]
      exact ih hfind

/-- Claim C10: an update body carrying name as the empty string alongside a
non-empty email passes validation (the email is truthy) and writes the
empty string into the store: afterwards the row for that id has an empty
name, so update does not preserve the data model's non-empty-name
invariant. -/
theorem C10_update_accepts_empty_field (env : Env) (uid : Nat) (s : Sys)
    (u : User) (e : String)
    (hfind : findUser s.store uid = some u) (he : ¬ e = "")
    (hnc : s.store.rows.any (fun v => v.id ≠ uid ∧ v.email = e) = false)
    (hdb : env.dbUp = true) (herr : env.dbErr = false) :
    (update_user env uid (some ⟨some "", some e⟩) s).status = 200 ∧
    findUser (update_user env uid (some ⟨some "", some e⟩) s).sys.store uid =
      some ⟨u.id, "", e, u.created_at⟩ := by
  have hv : truthy (⟨some "", some e⟩ : ReqBody).name = true ∨
      truthy (⟨some "", some e⟩ : ReqBody).email = true := by
    right; simp [truthy, he]
  have hnc2 : ∀ x ∈ s.store.rows, ¬x.id = uid → ¬x.email = e := by
    intro x hx hid2 hem
    have hxt : s.store.rows.any (fun v => v.id ≠ uid ∧ v.email = e) = true :=
      List.any_eq_true.mpr ⟨x, hx, decide_eq_true ⟨hid2, hem⟩⟩
    rw [hnc] at hxt
    exact absurd hxt (by simp)
  have hupd : updateUser s.store uid (some "") (some e) =
      .ok ⟨u.id, "", e, u.created_at⟩
        ⟨s.store.rows.map
            (fun v => if v.id = uid then ⟨u.id, "", e, u.created_at⟩ else v),
          s.store.nextId⟩ := by
    simp [updateUser, hfind]
    exact hnc2
  have hfind2 : s.store.rows.find? (fun v => v.id = uid) = some u := hfind
  have huid : u.id = uid := by
    have := List.find?_some hfind2
    simpa using this
  rw [update_user_ok env uid ⟨some "", some e⟩ s ⟨u.id, "", e, u.created_at⟩
    ⟨s.store.rows.map (fun v => if v.id = uid then ⟨u.id, "", e, u.created_at⟩ else v),
      s.store.nextId⟩ hv hdb herr hupd]
  exact ⟨rfl, find?_map_replace s.store.rows uid u ⟨u.id, "", e, u.created_at⟩ hfind2 huid⟩

/-- Claim C10 witness: on a concrete store, updating user 1 with
{"name": "", "email": "new@x.io"} succeeds with 200 and the stored row
afterwards has an empty name. -/
theorem C10_update_accepts_empty_field_witness :
    (update_user ⟨true, true, false⟩ 1 (some ⟨some "", some "new@x.io"⟩)
        ⟨⟨[⟨1, "Ada", "ada@x.io", "2024-01-01T00:00:00"⟩], 2⟩, [], 0, 0, 0⟩).status = 200 ∧
    findUser (update_user ⟨true, true, false⟩ 1 (some ⟨some "", some "new@x.io"⟩)
        ⟨⟨[⟨1, "Ada", "ada@x.io", "2024-01-01T00:00:00"⟩], 2⟩, [], 0, 0, 0⟩).sys.store 1 =
      some ⟨1, "", "new@x.io", "2024-01-01T00:00:00"⟩ :=
  C10_update_accepts_empty_field ⟨true, true, false⟩ 1
    ⟨⟨[⟨1, "Ada", "ada@x.io", "2024-01-01T00:00:00"⟩], 2⟩, [], 0, 0, 0⟩
    ⟨1, "Ada", "ada@x.io", "2024-01-01T00:00:00"⟩ "new@x.io"
    (by decide) (by decide) (by decide) rfl rfl
